import Mathlib

/-!
Shallow embedding of `programs/vibezlive-program/src/lib.rs` (VibezLive,
an Anchor/Solana stream-monetization settlement program).

Machine integers are modelled as `Nat` (u8/u32/u64) and `Int` (i64); the
source's `checked_add`/`checked_mul`/`checked_sub`/`checked_div` become
`Option`-valued functions with explicit range checks.  Each instruction
handler becomes a pure function from a `World` (the accounts the
instruction's Anchor context can touch, plus the token balances involved
and an append-only event log mirroring `emit!`) to
`Except ProgError World`; returning `Except.error` models the
transaction aborting with no state change.  The `EndStream` context
holds exactly one `viewer_reward` account (source lines 525-530), so the
`World` holds exactly one `ViewerReward` cell, which the settlement loop
writes (and overwrites), exactly as the handler does.  SPL
`token::transfer` is modelled as moving an amount between two balances,
failing when the source balance is insufficient.
-/

namespace VibezLive

/-- Account addresses / public keys, abstracted to `Nat`. -/
abbrev Pubkey := Nat

/-- The `StreamError` enum of the source (lines 704-741). -/
inductive StreamError
  | InvalidFeePercentage
  | InvalidWatchPercentage
  | StreamInactive
  | StreamStillActive
  | InvalidEscrowAccount
  | UnauthorizedAccess
  | StreamDurationNotMet
  | InvalidBackendSignature
  | RewardAlreadyClaimed
  | MathOverflow
  | TimeoutNotReached
  | DisputeAlreadyResolved
deriving DecidableEq, Repr

/-- A failed instruction: either a program `StreamError` or a failure of
the external SPL token-transfer CPI (insufficient funds). -/
inductive ProgError
  | program : StreamError → ProgError
  | tokenTransferFailed
deriving DecidableEq, Repr

/-- 2 ^ 64, the exclusive upper bound of `u64`. -/
def U64_LIMIT : Nat := 2 ^ 64

/-- i64 lower bound. -/
def I64_MIN : Int := -(2 ^ 63)

/-- i64 upper bound. -/
def I64_MAX : Int := 2 ^ 63 - 1

/-- `u64::checked_add`. -/
def checked_add_u64 (a b : Nat) : Option Nat :=
  if a + b < U64_LIMIT then some (a + b) else none

/-- `u64::checked_sub`. -/
def checked_sub_u64 (a b : Nat) : Option Nat :=
  if b ≤ a then some (a - b) else none

/-- `u64::checked_mul`. -/
def checked_mul_u64 (a b : Nat) : Option Nat :=
  if a * b < U64_LIMIT then some (a * b) else none

/-- `u64::checked_div`: `none` exactly on division by zero. -/
def checked_div_u64 (a b : Nat) : Option Nat :=
  if b = 0 then none else some (a / b)

/-- `i64::checked_add`. -/
def checked_add_i64 (a b : Int) : Option Int :=
  if I64_MIN ≤ a + b ∧ a + b ≤ I64_MAX then some (a + b) else none

/-- `StreamBumps` (source lines 691-695). -/
structure StreamBumps where
  stream_bump : Nat
  escrow_bump : Nat
deriving DecidableEq, Repr

/-- The `Stream` account (source lines 647-660). -/
structure Stream where
  id : String
  creator : Pubkey
  start_time : Int
  end_time : Int
  is_active : Bool
  creator_percentage : Nat
  min_watch_percentage : Nat
  min_stream_duration : Int
  total_donations : Nat
  escrow_account : Pubkey
  bumps : StreamBumps
deriving DecidableEq, Repr

/-- The `PlatformState` account (source lines 640-645). -/
structure PlatformState where
  authority : Pubkey
  platform_fee : Nat
  stream_count : Nat
deriving DecidableEq, Repr

/-- The `Donation` account (source lines 662-668). -/
structure Donation where
  donor : Pubkey
  stream : Pubkey
  amount : Nat
  timestamp : Int
deriving DecidableEq, Repr

/-- The `ViewerReward` account (source lines 670-676). -/
structure ViewerReward where
  viewer : Pubkey
  stream : Pubkey
  amount : Nat
  claimed : Bool
deriving DecidableEq, Repr

/-- The `Dispute` account (source lines 678-689). -/
structure Dispute where
  stream : Pubkey
  claimant : Pubkey
  reason : String
  evidence : String
  is_resolved : Bool
  resolution : String
  resolved_at : Int
  resolver : Pubkey
  timestamp : Int
deriving DecidableEq, Repr

/-- One `ViewerData` attestation entry (source lines 697-702):
`watch_time` is a `u32`, `watch_percentage` a `u8`. -/
structure ViewerData where
  address : Pubkey
  watch_time : Nat
  watch_percentage : Nat
deriving DecidableEq, Repr

/-- The `emit!` events of the source (lines 743-801), restricted to the
fields the claims mention. -/
inductive Event
  | StreamStarted (creator : Pubkey) (stream_id : String) (start_time : Int)
  | DonationReceived (stream_id : String) (donor : Pubkey) (amount : Nat) (timestamp : Int)
  | StreamEnded (stream_id : String) (creator : Pubkey) (end_time : Int) (total_donations : Nat)
  | StreamAutoSettled (stream_id : String) (creator : Pubkey) (end_time : Int) (total_donations : Nat)
  | RewardCalculated (stream_id : String) (viewer : Pubkey) (amount : Nat)
  | RewardClaimed (stream_id : String) (viewer : Pubkey) (amount : Nat)
  | DisputeOpened (stream_id : String) (claimant : Pubkey) (timestamp : Int)
  | DisputeResolved (stream_id : String) (resolver : Pubkey) (timestamp : Int)
deriving DecidableEq, Repr

/-- The accounts one instruction of the program can reach, plus the token
balances moved by the CPIs and the emitted events.  There is exactly one
`viewer_reward` cell because the `EndStream` context passes exactly one
`viewer_reward` account (source lines 525-530). -/
structure World where
  stream : Stream
  stream_key : Pubkey
  escrow : Nat
  creator_balance : Nat
  donor_balance : Nat
  viewer_balance : Nat
  viewer_reward : ViewerReward
  donation : Donation
  dispute : Dispute
  platform : PlatformState
  events : List Event
deriving DecidableEq, Repr

/-- SPL `token::transfer amount` from one balance to another; fails when
the source balance is insufficient.  Returns (new source, new target). -/
def transfer_tokens (amount fromBal toBal : Nat) : Except ProgError (Nat × Nat) :=
  if amount ≤ fromBal then Except.ok (fromBal - amount, toBal + amount)
  else Except.error ProgError.tokenTransferFailed

/-- Little-endian bytes of a `u32`, as in `watch_time.to_le_bytes()`. -/
def u32_le_bytes (n : Nat) : List Nat :=
  [n % 256, n / 256 % 256, n / 256 ^ 2 % 256, n / 256 ^ 3 % 256]

/-- The 32 bytes of a pubkey (`Pubkey::to_bytes`), little-endian over the
abstract `Nat` representation. -/
def pubkey_bytes (p : Pubkey) : List Nat :=
  (List.range 32).map fun i => p / 256 ^ i % 256

/-- `create_signature_message` (source lines 859-869): the stream id bytes
followed, per attestation in list order, by the viewer address bytes, the
4 little-endian watch-time bytes and the watch-percentage byte. -/
def create_signature_message (stream_id : String) (viewer_data : List ViewerData) : List Nat :=
  viewer_data.foldl
    (fun acc v => acc ++ pubkey_bytes v.address ++ u32_le_bytes v.watch_time ++ [v.watch_percentage])
    (stream_id.data.map Char.toNat)

/-- `verify_signature` (source lines 871-876).  The source stubs this to
`true` unconditionally ("For simplicity, we'll just return true in this
example"), ignoring all three arguments. -/
def verify_signature (pubkey : Pubkey) (message : List Nat) (signature : List Nat) : Bool :=
  true

/-- Stand-in for `Pubkey::create_with_seed(authority, "backend_signer",
authority)` (source lines 134-138): a deterministic function of the
authority.  Its concrete value is irrelevant to every claim because the
source's `verify_signature` ignores its pubkey argument; the fixed seed
is short, so the source call never errs. -/
def backend_signer_pubkey (authority : Pubkey) : Pubkey :=
  authority

/-- Lift `Option` to `Except`, as the source's `.ok_or(err)?`. -/
def ok_or {α : Type} (o : Option α) (e : StreamError) : Except ProgError α :=
  match o with
  | some a => Except.ok a
  | none => Except.error (ProgError.program e)

/-- The `total_valid_watch_time` accumulation loop of `end_stream`
(source lines 145-154): overflow-checked sum of `watch_time` over the
attestations whose `watch_percentage` meets the stream minimum. -/
def total_valid_watch_time (min_pct : Nat) : List ViewerData → Nat → Except ProgError Nat
  | [], acc => Except.ok acc
  | v :: rest, acc =>
    if v.watch_percentage ≥ min_pct then
      match checked_add_u64 acc v.watch_time with
      | none => Except.error (ProgError.program StreamError.MathOverflow)
      | some s => total_valid_watch_time min_pct rest s
    else total_valid_watch_time min_pct rest acc

/-- The per-viewer reward loop of `end_stream` (source lines 190-217):
for each eligible attestation, compute
`viewers_amount * watch_time / total_t` with checked multiply and divide
and, when positive, write the single `viewer_reward` account and emit a
`RewardCalculated` event.  The account cell is overwritten on every
positive-reward iteration, exactly as in the source. -/
def process_viewer_rewards (stream_id : String) (stream_key : Pubkey)
    (min_pct viewers_amount total_t : Nat) :
    List ViewerData → ViewerReward → List Event → Except ProgError (ViewerReward × List Event)
  | [], vr, evs => Except.ok (vr, evs)
  | v :: rest, vr, evs =>
    if v.watch_percentage ≥ min_pct then
      match checked_mul_u64 viewers_amount v.watch_time with
      | none => Except.error (ProgError.program StreamError.MathOverflow)
      | some m =>
        match checked_div_u64 m total_t with
        | none => Except.error (ProgError.program StreamError.MathOverflow)
        | some viewer_reward =>
          if viewer_reward > 0 then
            process_viewer_rewards stream_id stream_key min_pct viewers_amount total_t rest
              { viewer := v.address, stream := stream_key, amount := viewer_reward,
                claimed := false }
              (evs ++ [Event.RewardCalculated stream_id v.address viewer_reward])
          else
            process_viewer_rewards stream_id stream_key min_pct viewers_amount total_t rest vr evs
    else process_viewer_rewards stream_id stream_key min_pct viewers_amount total_t rest vr evs

/-- `end_stream` (source lines 109-231). -/
def end_stream (w : World) (viewer_data : List ViewerData) (backend_signature : List Nat)
    (now : Int) : Except ProgError World :=
  let stream := w.stream
  if stream.is_active then
    match checked_add_i64 stream.start_time stream.min_stream_duration with
    | none => Except.error (ProgError.program StreamError.MathOverflow)
    | some deadline =>
      if now < deadline then Except.error (ProgError.program StreamError.StreamDurationNotMet)
      else
        if verify_signature (backend_signer_pubkey w.platform.authority)
            (create_signature_message stream.id viewer_data) backend_signature then
          match total_valid_watch_time stream.min_watch_percentage viewer_data 0 with
          | Except.error e => Except.error e
          | Except.ok total_t =>
            match checked_mul_u64 stream.total_donations stream.creator_percentage with
            | none => Except.error (ProgError.program StreamError.MathOverflow)
            | some cm =>
              match checked_div_u64 cm 100 with
              | none => Except.error (ProgError.program StreamError.MathOverflow)
              | some creator_amount =>
                match checked_sub_u64 stream.total_donations creator_amount with
                | none => Except.error (ProgError.program StreamError.MathOverflow)
                | some viewers_amount =>
                  match (if creator_amount > 0 then
                           transfer_tokens creator_amount w.escrow w.creator_balance
                         else Except.ok (w.escrow, w.creator_balance)) with
                  | Except.error e => Except.error e
                  | Except.ok (escrow1, creator_balance1) =>
                    match (if 0 < viewers_amount ∧ 0 < total_t then
                             process_viewer_rewards stream.id w.stream_key
                               stream.min_watch_percentage viewers_amount total_t
                               viewer_data w.viewer_reward w.events
                           else Except.ok (w.viewer_reward, w.events)) with
                    | Except.error e => Except.error e
                    | Except.ok (vr1, events1) =>
                      Except.ok { w with
                        stream := { stream with is_active := false, end_time := now },
                        escrow := escrow1,
                        creator_balance := creator_balance1,
                        viewer_reward := vr1,
                        events := events1 ++
                          [Event.StreamEnded stream.id stream.creator now
                            stream.total_donations] }
        else Except.error (ProgError.program StreamError.InvalidBackendSignature)
  else Except.error (ProgError.program StreamError.StreamInactive)

/-- `donate` (source lines 63-107). -/
def donate (w : World) (donor : Pubkey) (amount : Nat) (now : Int) : Except ProgError World :=
  if w.stream.is_active then
    match transfer_tokens amount w.donor_balance w.escrow with
    | Except.error e => Except.error e
    | Except.ok (donor_balance1, escrow1) =>
      match checked_add_u64 w.stream.total_donations amount with
      | none => Except.error (ProgError.program StreamError.MathOverflow)
      | some td =>
        Except.ok { w with
          stream := { w.stream with total_donations := td },
          donor_balance := donor_balance1,
          escrow := escrow1,
          donation := { donor := donor, stream := w.stream_key, amount := amount,
                        timestamp := now },
          events := w.events ++ [Event.DonationReceived w.stream.id donor amount now] }
  else Except.error (ProgError.program StreamError.StreamInactive)

/-- `claim_reward` (source lines 233-271). -/
def claim_reward (w : World) : Except ProgError World :=
  if w.viewer_reward.claimed then
    Except.error (ProgError.program StreamError.RewardAlreadyClaimed)
  else if w.stream.is_active then
    Except.error (ProgError.program StreamError.StreamStillActive)
  else
    match transfer_tokens w.viewer_reward.amount w.escrow w.viewer_balance with
    | Except.error e => Except.error e
    | Except.ok (escrow1, viewer_balance1) =>
      Except.ok { w with
        escrow := escrow1,
        viewer_balance := viewer_balance1,
        viewer_reward := { w.viewer_reward with claimed := true },
        events := w.events ++
          [Event.RewardClaimed w.stream.id w.viewer_reward.viewer w.viewer_reward.amount] }

/-- `auto_settle_stream` (source lines 273-326).  The `settler` signer of
the `AutoSettleStream` context (source lines 570-594) is passed in but,
as in the source, never inspected. -/
def auto_settle_stream (w : World) (settler : Pubkey) (timeout_duration : Int) (now : Int) :
    Except ProgError World :=
  let stream := w.stream
  if stream.is_active then
    match checked_add_i64 stream.start_time timeout_duration with
    | none => Except.error (ProgError.program StreamError.MathOverflow)
    | some deadline =>
      if now < deadline then Except.error (ProgError.program StreamError.TimeoutNotReached)
      else
        match (if stream.total_donations > 0 then
                 transfer_tokens stream.total_donations w.escrow w.creator_balance
               else Except.ok (w.escrow, w.creator_balance)) with
        | Except.error e => Except.error e
        | Except.ok (escrow1, creator_balance1) =>
          Except.ok { w with
            stream := { stream with is_active := false, end_time := now },
            escrow := escrow1,
            creator_balance := creator_balance1,
            events := w.events ++
              [Event.StreamAutoSettled stream.id stream.creator now stream.total_donations] }
  else Except.error (ProgError.program StreamError.StreamInactive)

/-- `open_dispute` (source lines 328-354).  The dispute account is
freshly `init`-allocated, so the fields the handler does not set start at
their zero values. -/
def open_dispute (w : World) (claimant : Pubkey) (dispute_reason evidence : String)
    (now : Int) : Except ProgError World :=
  if w.stream.is_active then Except.error (ProgError.program StreamError.StreamStillActive)
  else
    Except.ok { w with
      dispute := { stream := w.stream_key, claimant := claimant, reason := dispute_reason,
                   evidence := evidence, is_resolved := false, resolution := "",
                   resolved_at := 0, resolver := 0, timestamp := now },
      events := w.events ++ [Event.DisputeOpened w.stream.id claimant now] }

/-- `resolve_dispute` (source lines 356-408).  When corrections are
supplied the signature gate of `end_stream` is re-applied over them; the
source then leaves reward recalculation unimplemented (`TODO`, lines
390-391), so no `ViewerReward` is touched. -/
def resolve_dispute (w : World) (authority : Pubkey) (resolution : String)
    (viewer_data_corrections : Option (List ViewerData)) (backend_signature : List Nat)
    (now : Int) : Except ProgError World :=
  if w.dispute.is_resolved then
    Except.error (ProgError.program StreamError.DisputeAlreadyResolved)
  else if authority = w.platform.authority then
    let gate :=
      match viewer_data_corrections with
      | some corrections =>
        verify_signature (backend_signer_pubkey w.platform.authority)
          (create_signature_message w.stream.id corrections) backend_signature
      | none => true
    if gate then
      let dispute1 := { w.dispute with is_resolved := true, resolution := resolution, resolved_at := now, resolver := authority }
      Except.ok { w with
        dispute := dispute1,
        events := w.events ++ [Event.DisputeResolved w.stream.id authority now] }
    else Except.error (ProgError.program StreamError.InvalidBackendSignature)
  else Except.error (ProgError.program StreamError.UnauthorizedAccess)

/-- One instruction call against a `World`, with its arguments. -/
inductive Op
  | donateOp (donor : Pubkey) (amount : Nat) (now : Int)
  | endStreamOp (viewer_data : List ViewerData) (backend_signature : List Nat) (now : Int)
  | claimRewardOp
  | autoSettleOp (settler : Pubkey) (timeout_duration : Int) (now : Int)
  | openDisputeOp (claimant : Pubkey) (reason evidence : String) (now : Int)
  | resolveDisputeOp (authority : Pubkey) (resolution : String)
      (corrections : Option (List ViewerData)) (sig : List Nat) (now : Int)

/-- Dispatch an `Op` to its handler. -/
def apply_op : Op → World → Except ProgError World
  | Op.donateOp donor amount now, w => donate w donor amount now
  | Op.endStreamOp vd sig now, w => end_stream w vd sig now
  | Op.claimRewardOp, w => claim_reward w
  | Op.autoSettleOp s t now, w => auto_settle_stream w s t now
  | Op.openDisputeOp c r e now, w => open_dispute w c r e now
  | Op.resolveDisputeOp a r c sig now, w => resolve_dispute w a r c sig now

/-- Run one op; a failing op leaves the world unchanged (the transaction
aborts atomically). -/
def run_op (op : Op) (w : World) : World :=
  match apply_op op w with
  | Except.ok w2 => w2
  | Except.error _ => w

/-- Run a sequence of ops. -/
def run_ops (ops : List Op) (w : World) : World :=
  ops.foldl (fun w2 op => run_op op w2) w

end VibezLive

namespace VibezLive

/-- Example stream of the spec's proportional-split scenario:
1000 units donated, creator percentage 20, minimum watch percentage 50. -/
def egStream : Stream :=
  { id := "s", creator := 1, start_time := 0, end_time := 0, is_active := true,
    creator_percentage := 20, min_watch_percentage := 50, min_stream_duration := 0,
    total_donations := 1000, escrow_account := 7,
    bumps := { stream_bump := 0, escrow_bump := 0 } }

/-- Example platform registry. -/
def egPlatform : PlatformState :=
  { authority := 9, platform_fee := 10, stream_count := 1 }

/-- A zero-initialized (freshly allocated) `ViewerReward` account. -/
def egReward0 : ViewerReward :=
  { viewer := 0, stream := 0, amount := 0, claimed := false }

/-- A zero-initialized `Donation` account. -/
def egDonation0 : Donation :=
  { donor := 0, stream := 0, amount := 0, timestamp := 0 }

/-- A zero-initialized `Dispute` account. -/
def egDispute0 : Dispute :=
  { stream := 0, claimant := 0, reason := "", evidence := "", is_resolved := false,
    resolution := "", resolved_at := 0, resolver := 0, timestamp := 0 }

/-- Example world for the spec's settlement scenarios: the escrow holds
the 1000 donated units. -/
def egWorld : World :=
  { stream := egStream, stream_key := 5, escrow := 1000, creator_balance := 0,
    donor_balance := 100, viewer_balance := 0, viewer_reward := egReward0,
    donation := egDonation0, dispute := egDispute0, platform := egPlatform, events := [] }

/-- The spec's two eligible attestations: watch times 30 and 70, both at
100 percent watched. -/
def egVD : List ViewerData :=
  [ { address := 10, watch_time := 30, watch_percentage := 100 },
    { address := 11, watch_time := 70, watch_percentage := 100 } ]

/-- A syntactically valid (64-byte) but incorrectly signed signature:
all zeros. -/
def egSig : List Nat := List.replicate 64 0

end VibezLive

namespace VibezLive

/-- The `World` the settlement example produces: creator paid 200 of the
1000-unit pot, the single `viewer_reward` account holding the last
eligible viewer's reward of 560, and both `RewardCalculated` events. -/
def egAfter : World :=
  { stream := { egStream with is_active := false, end_time := 10 },
    stream_key := 5, escrow := 800, creator_balance := 200, donor_balance := 100,
    viewer_balance := 0,
    viewer_reward := { viewer := 11, stream := 5, amount := 560, claimed := false },
    donation := egDonation0, dispute := egDispute0, platform := egPlatform,
    events := [Event.RewardCalculated "s" 10 240, Event.RewardCalculated "s" 11 560,
               Event.StreamEnded "s" 1 10 1000] }

/-- The spec's remainder example: a 100-unit pot, creator percentage 0,
three eligible viewers with one watch-time unit each. -/
def egRemWorld : World :=
  { egWorld with
    stream := { egStream with creator_percentage := 0, total_donations := 100 },
    escrow := 100 }

/-- Three attestations with watch time 1, all fully watched. -/
def egRemVD : List ViewerData :=
  [ { address := 21, watch_time := 1, watch_percentage := 100 },
    { address := 22, watch_time := 1, watch_percentage := 100 },
    { address := 23, watch_time := 1, watch_percentage := 100 } ]

/-- A world whose stream is already settled (inactive). -/
def egSettled : World :=
  { egWorld with stream := { egStream with is_active := false, end_time := 4 } }

/-- A settled world holding an unclaimed 560-unit reward for viewer 11. -/
def egClaimWorld : World :=
  { egSettled with
    escrow := 800,
    viewer_reward := { viewer := 11, stream := 5, amount := 560, claimed := false } }

end VibezLive


namespace VibezLive

/-- Sum of `watch_time` over the attestations meeting the minimum watch
percentage: the mathematical value of `total_valid_watch_time`. -/
def valid_watch_sum (min_pct : Nat) : List ViewerData → Nat
  | [] => 0
  | v :: rest =>
    (if v.watch_percentage ≥ min_pct then v.watch_time else 0) + valid_watch_sum min_pct rest

/-- The `RewardCalculated` events the settlement loop emits: one per
eligible attestation whose floor-divided reward is positive, in list
order. -/
def reward_events (stream_id : String) (min_pct va t : Nat) : List ViewerData → List Event
  | [] => []
  | v :: rest =>
    (if v.watch_percentage ≥ min_pct ∧ 0 < va * v.watch_time / t then
       [Event.RewardCalculated stream_id v.address (va * v.watch_time / t)]
     else []) ++ reward_events stream_id min_pct va t rest

/-- Sum of the floor-divided rewards of all eligible attestations
(zero-reward entries contribute zero). -/
def eligible_reward_sum (min_pct va t : Nat) : List ViewerData → Nat
  | [] => 0
  | v :: rest =>
    (if v.watch_percentage ≥ min_pct then va * v.watch_time / t else 0) +
      eligible_reward_sum min_pct va t rest

/-- Total amount carried by the `RewardCalculated` events of a log. -/
def reward_event_total : List Event → Nat
  | [] => 0
  | Event.RewardCalculated _ _ a :: rest => a + reward_event_total rest
  | _ :: rest => reward_event_total rest

/-- The full event suffix a successful `end_stream` appends: the
`RewardCalculated` events (when the viewers' pot and the valid watch time
are both positive) followed by `StreamEnded`. -/
def settlement_events (stream : Stream) (viewer_data : List ViewerData) (now : Int) :
    List Event :=
  let ca := stream.total_donations * stream.creator_percentage / 100
  let va := stream.total_donations - ca
  let t := valid_watch_sum stream.min_watch_percentage viewer_data
  (if 0 < va ∧ 0 < t then
     reward_events stream.id stream.min_watch_percentage va t viewer_data
   else []) ++ [Event.StreamEnded stream.id stream.creator now stream.total_donations]

/-- Result of settling `egRemWorld` with `egRemVD`: three 33-unit
rewards computed, 100 units still in escrow (creator share is 0). -/
def egRemAfter : World :=
  { egRemWorld with
    stream := { egRemWorld.stream with is_active := false, end_time := 10 },
    viewer_reward := { viewer := 23, stream := 5, amount := 33, claimed := false },
    events := [Event.RewardCalculated "s" 21 33, Event.RewardCalculated "s" 22 33,
               Event.RewardCalculated "s" 23 33, Event.StreamEnded "s" 1 10 100] }

/-- Result of auto-settling `egWorld` at time 8 with timeout 7: the whole
1000-unit pot goes to the creator. -/
def egAutoAfter : World :=
  { egWorld with
    stream := { egStream with is_active := false, end_time := 8 },
    escrow := 0, creator_balance := 1000,
    events := [Event.StreamAutoSettled "s" 1 8 1000] }

/-- Result of claiming the 560-unit reward of `egClaimWorld`. -/
def egClaimAfter : World :=
  { egClaimWorld with
    escrow := 240, viewer_balance := 560,
    viewer_reward := { viewer := 11, stream := 5, amount := 560, claimed := true },
    events := [Event.RewardClaimed "s" 11 560] }

/-- Result of a zero-amount donation to `egWorld` by donor 2 at time 6. -/
def egDonateAfter : World :=
  { egWorld with
    donation := { donor := 2, stream := 5, amount := 0, timestamp := 6 },
    events := [Event.DonationReceived "s" 2 0 6] }

/-- Result of the operator (authority 9) resolving the fresh dispute of
`egSettled` with corrections `egVD` at time 20. -/
def egResolveAfter : World :=
  { egSettled with
    dispute := { stream := 0, claimant := 0, reason := "", evidence := "",
                 is_resolved := true, resolution := "fixed", resolved_at := 20,
                 resolver := 9, timestamp := 0 },
    events := [Event.DisputeResolved "s" 9 20] }

theorem checked_add_u64_some {a b c : Nat} (h : checked_add_u64 a b = some c) : c = a + b := by
  unfold checked_add_u64 at h
  split at h <;> simp_all

theorem checked_mul_u64_some {a b c : Nat} (h : checked_mul_u64 a b = some c) : c = a * b := by
  unfold checked_mul_u64 at h
  split at h <;> simp_all

theorem checked_div_u64_some {a b c : Nat} (h : checked_div_u64 a b = some c) :
    b ≠ 0 ∧ c = a / b := by
  unfold checked_div_u64 at h
  split at h <;> simp_all

theorem checked_sub_u64_some {a b c : Nat} (h : checked_sub_u64 a b = some c) :
    b ≤ a ∧ c = a - b := by
  unfold checked_sub_u64 at h
  split at h <;> simp_all

theorem checked_add_i64_some {a b c : Int} (h : checked_add_i64 a b = some c) : c = a + b := by
  unfold checked_add_i64 at h
  split at h <;> simp_all

theorem transfer_tokens_ok {a f t f2 t2 : Nat}
    (h : transfer_tokens a f t = Except.ok (f2, t2)) :
    a ≤ f ∧ f2 = f - a ∧ t2 = t + a := by
  unfold transfer_tokens at h
  split at h <;> simp_all

theorem total_valid_watch_time_ok {min_pct : Nat} {vd : List ViewerData} {acc t : Nat}
    (h : total_valid_watch_time min_pct vd acc = Except.ok t) :
    t = acc + valid_watch_sum min_pct vd := by
  induction vd generalizing acc with
  | nil =>
    unfold total_valid_watch_time at h
    simp [valid_watch_sum] at h ⊢
    omega
  | cons v rest ih =>
    unfold total_valid_watch_time at h
    by_cases hv : v.watch_percentage ≥ min_pct
    · simp only [if_pos hv] at h
      cases hm : checked_add_u64 acc v.watch_time with
      | none => rw [hm] at h; exact absurd h (by simp)
      | some s =>
        rw [hm] at h
        have hs := checked_add_u64_some hm
        have := ih h
        simp [valid_watch_sum, if_pos hv]
        omega
    · simp only [if_neg hv] at h
      have := ih h
      simp [valid_watch_sum, if_neg hv]
      omega

theorem process_viewer_rewards_ok_events {stream_id : String} {stream_key : Pubkey}
    {min_pct va t : Nat} {vd : List ViewerData} {vr : ViewerReward} {evs : List Event}
    {vr2 : ViewerReward} {evs2 : List Event}
    (h : process_viewer_rewards stream_id stream_key min_pct va t vd vr evs =
      Except.ok (vr2, evs2)) :
    evs2 = evs ++ reward_events stream_id min_pct va t vd := by
  induction vd generalizing vr evs with
  | nil =>
    unfold process_viewer_rewards at h
    simp [reward_events] at h ⊢
    exact h.2.symm
  | cons v rest ih =>
    unfold process_viewer_rewards at h
    by_cases hv : v.watch_percentage ≥ min_pct
    · simp only [if_pos hv] at h
      cases hm : checked_mul_u64 va v.watch_time with
      | none => simp only [hm] at h; exact absurd h (by simp)
      | some m =>
        simp only [hm] at h
        have hmv := checked_mul_u64_some hm
        cases hd : checked_div_u64 m t with
        | none => simp only [hd] at h; exact absurd h (by simp)
        | some r =>
          simp only [hd] at h
          have hdv := checked_div_u64_some hd
          by_cases hr : r > 0
          · simp only [if_pos hr] at h
            have := ih h
            rw [this]
            have hcond : v.watch_percentage ≥ min_pct ∧ 0 < va * v.watch_time / t := by
              constructor
              · exact hv
              · rw [← hmv, ← hdv.2]; exact hr
            simp [reward_events, if_pos hcond, hmv ▸ hdv.2]
          · simp only [if_neg hr] at h
            have := ih h
            rw [this]
            have hcond : ¬(v.watch_percentage ≥ min_pct ∧ 0 < va * v.watch_time / t) := by
              intro hc
              exact hr (by rw [← hmv, ← hdv.2] at hc; exact hc.2)
            simp [reward_events, if_neg hcond]
    · simp only [if_neg hv] at h
      have := ih h
      rw [this]
      have hcond : ¬(v.watch_percentage ≥ min_pct ∧ 0 < va * v.watch_time / t) := by
        intro hc; exact hv hc.1
      simp [reward_events, if_neg hcond]

end VibezLive

namespace VibezLive

theorem end_stream_ok_spec {w : World} {vd : List ViewerData} {sig : List Nat} {now : Int}
    {w2 : World} (h : end_stream w vd sig now = Except.ok w2) :
    w.stream.is_active = true ∧
    w.stream.total_donations * w.stream.creator_percentage / 100 ≤ w.stream.total_donations ∧
    w.stream.total_donations * w.stream.creator_percentage / 100 ≤ w.escrow ∧
    w2.creator_balance =
      w.creator_balance + w.stream.total_donations * w.stream.creator_percentage / 100 ∧
    w2.escrow = w.escrow - w.stream.total_donations * w.stream.creator_percentage / 100 ∧
    w2.stream = { w.stream with is_active := false, end_time := now } ∧
    w2.events = w.events ++ settlement_events w.stream vd now ∧
    w2.donation = w.donation ∧ w2.dispute = w.dispute ∧ w2.platform = w.platform ∧
    w2.donor_balance = w.donor_balance ∧ w2.viewer_balance = w.viewer_balance ∧
    w2.stream_key = w.stream_key := by
  by_cases ha : w.stream.is_active
  case neg => simp [end_stream, ha] at h
  simp only [end_stream, ha, if_true, verify_signature] at h
  cases hdl : checked_add_i64 w.stream.start_time w.stream.min_stream_duration with
  | none => simp only [hdl] at h; exact absurd h (by simp)
  | some deadline =>
  simp only [hdl] at h
  by_cases hnow : now < deadline
  case pos => simp only [if_pos hnow] at h; exact absurd h (by simp)
  simp only [if_neg hnow, if_true] at h
  cases htv : total_valid_watch_time w.stream.min_watch_percentage vd 0 with
  | error e => simp only [htv] at h; exact absurd h (by simp)
  | ok total_t =>
  simp only [htv] at h
  have htvv : total_t = valid_watch_sum w.stream.min_watch_percentage vd := by
    have := total_valid_watch_time_ok htv
    omega
  cases hcm : checked_mul_u64 w.stream.total_donations w.stream.creator_percentage with
  | none => simp only [hcm] at h; exact absurd h (by simp)
  | some cm =>
  simp only [hcm] at h
  have hcmv := checked_mul_u64_some hcm
  cases hdv : checked_div_u64 cm 100 with
  | none => simp only [hdv] at h; exact absurd h (by simp)
  | some ca =>
  simp only [hdv] at h
  have hcav : ca = w.stream.total_donations * w.stream.creator_percentage / 100 := by
    have := checked_div_u64_some hdv
    rw [this.2, hcmv]
  cases hsv : checked_sub_u64 w.stream.total_donations ca with
  | none => simp only [hsv] at h; exact absurd h (by simp)
  | some va =>
  simp only [hsv] at h
  have hsvv := checked_sub_u64_some hsv
  cases htr : (if ca > 0 then transfer_tokens ca w.escrow w.creator_balance
               else Except.ok (w.escrow, w.creator_balance)) with
  | error e => simp only [htr] at h; exact absurd h (by simp)
  | ok p =>
  obtain ⟨escrow1, cb1⟩ := p
  simp only [htr] at h
  have htrv : ca ≤ w.escrow ∧ escrow1 = w.escrow - ca ∧ cb1 = w.creator_balance + ca := by
    by_cases hca : ca > 0
    · rw [if_pos hca] at htr
      exact transfer_tokens_ok htr
    · rw [if_neg hca] at htr
      have hca0 : ca = 0 := by omega
      simp only [Except.ok.injEq, Prod.mk.injEq] at htr
      constructor
      · omega
      · omega
  cases hpr : (if 0 < va ∧ 0 < total_t then
                 process_viewer_rewards w.stream.id w.stream_key w.stream.min_watch_percentage
                   va total_t vd w.viewer_reward w.events
               else Except.ok (w.viewer_reward, w.events)) with
  | error e => simp only [hpr] at h; exact absurd h (by simp)
  | ok q =>
  obtain ⟨vr1, evs1⟩ := q
  simp only [hpr] at h
  have hev : evs1 = w.events ++
      (if 0 < va ∧ 0 < total_t then
         reward_events w.stream.id w.stream.min_watch_percentage va total_t vd
       else []) := by
    by_cases hc : 0 < va ∧ 0 < total_t
    · rw [if_pos hc] at hpr
      rw [if_pos hc]
      exact process_viewer_rewards_ok_events hpr
    · rw [if_neg hc] at hpr
      rw [if_neg hc]
      simp only [Except.ok.injEq, Prod.mk.injEq] at hpr
      simp [hpr.2.symm]
  simp only [Except.ok.injEq] at h
  subst h
  refine ⟨ha, ?_, ?_, ?_, ?_, rfl, ?_, rfl, rfl, rfl, rfl, rfl, rfl⟩
  · rw [← hcav]; exact hsvv.1
  · rw [← hcav]; exact htrv.1
  · rw [← hcav]; exact htrv.2.2
  · rw [← hcav]; exact htrv.2.1
  · rw [hev, settlement_events, ← hcav, ← htvv, ← hsvv.2]
    simp [List.append_assoc]

end VibezLive

namespace VibezLive

theorem eligible_reward_sum_zero_t (min_pct va : Nat) (vd : List ViewerData) :
    eligible_reward_sum min_pct va 0 vd = 0 := by
  induction vd with
  | nil => rfl
  | cons v rest ih => simp [eligible_reward_sum, ih]

theorem eligible_reward_sum_mul_le (min_pct va t : Nat) (vd : List ViewerData) :
    eligible_reward_sum min_pct va t vd * t ≤ va * valid_watch_sum min_pct vd := by
  induction vd with
  | nil => simp [eligible_reward_sum, valid_watch_sum]
  | cons v rest ih =>
    simp only [eligible_reward_sum, valid_watch_sum, Nat.add_mul, Nat.mul_add]
    have hdm : va * v.watch_time / t * t ≤ va * v.watch_time := Nat.div_mul_le_self _ _
    by_cases hv : v.watch_percentage ≥ min_pct
    · simp only [if_pos hv]
      omega
    · simp only [if_neg hv]
      omega

theorem eligible_reward_sum_le (min_pct va : Nat) (vd : List ViewerData) :
    eligible_reward_sum min_pct va (valid_watch_sum min_pct vd) vd ≤ va := by
  cases ht : valid_watch_sum min_pct vd with
  | zero => rw [eligible_reward_sum_zero_t]; exact Nat.zero_le va
  | succ k =>
    have hb := eligible_reward_sum_mul_le min_pct va (k + 1) vd
    rw [ht] at hb
    exact Nat.le_of_mul_le_mul_right hb (Nat.succ_pos k)

theorem reward_event_total_append (a b : List Event) :
    reward_event_total (a ++ b) = reward_event_total a + reward_event_total b := by
  induction a with
  | nil => simp [reward_event_total]
  | cons e rest ih =>
    cases e <;> simp [reward_event_total, ih] <;> omega

theorem reward_event_total_reward_events (stream_id : String) (min_pct va t : Nat)
    (vd : List ViewerData) :
    reward_event_total (reward_events stream_id min_pct va t vd) =
      eligible_reward_sum min_pct va t vd := by
  induction vd with
  | nil => rfl
  | cons v rest ih =>
    simp only [reward_events, eligible_reward_sum]
    by_cases hv : v.watch_percentage ≥ min_pct
    · by_cases hr : 0 < va * v.watch_time / t
      · have hc : v.watch_percentage ≥ min_pct ∧ 0 < va * v.watch_time / t := ⟨hv, hr⟩
        rw [if_pos hc, if_pos hv]
        simp [reward_event_total, ih]
      · have hc : ¬(v.watch_percentage ≥ min_pct ∧ 0 < va * v.watch_time / t) := by
          intro hcc; exact hr hcc.2
        have hr0 : va * v.watch_time / t = 0 := Nat.eq_zero_of_not_pos hr
        rw [if_neg hc, if_pos hv, hr0]
        simpa using ih
    · have hc : ¬(v.watch_percentage ≥ min_pct ∧ 0 < va * v.watch_time / t) := by
        intro hcc; exact hv hcc.1
      rw [if_neg hc, if_neg hv]
      simp [ih]

end VibezLive

namespace VibezLive

theorem claim_reward_ok_stream {w w2 : World} (h : claim_reward w = Except.ok w2) :
    w2.stream = w.stream := by
  unfold claim_reward at h
  split at h
  · exact absurd h (by simp)
  · split at h
    · exact absurd h (by simp)
    · split at h
      · exact absurd h (by simp)
      · simp only [Except.ok.injEq] at h
        subst h
        rfl

theorem open_dispute_ok_stream {w : World} {c : Pubkey} {r e : String} {now : Int} {w2 : World}
    (h : open_dispute w c r e now = Except.ok w2) : w2.stream = w.stream := by
  unfold open_dispute at h
  split at h
  · exact absurd h (by simp)
  · simp only [Except.ok.injEq] at h
    subst h
    rfl

theorem resolve_dispute_ok_stream {w : World} {a : Pubkey} {r : String}
    {c : Option (List ViewerData)} {sig : List Nat} {now : Int} {w2 : World}
    (h : resolve_dispute w a r c sig now = Except.ok w2) : w2.stream = w.stream := by
  unfold resolve_dispute at h
  split at h
  · exact absurd h (by simp)
  · split at h
    · cases c with
      | some corr =>
        simp only [verify_signature, if_true, Except.ok.injEq] at h
        subst h
        rfl
      | none =>
        simp only [if_true, Except.ok.injEq] at h
        subst h
        rfl
    · exact absurd h (by simp)

theorem apply_op_preserves_inactive (op : Op) (w w2 : World)
    (hw : w.stream.is_active = false) (h : apply_op op w = Except.ok w2) :
    w2.stream.is_active = false := by
  cases op with
  | donateOp d a n => simp [apply_op, donate, hw] at h
  | endStreamOp vd sig n => simp [apply_op, end_stream, hw] at h
  | autoSettleOp s t n => simp [apply_op, auto_settle_stream, hw] at h
  | claimRewardOp =>
    have := claim_reward_ok_stream h
    rw [this]
    exact hw
  | openDisputeOp c r e n =>
    have := open_dispute_ok_stream h
    rw [this]
    exact hw
  | resolveDisputeOp a r c sig n =>
    have := resolve_dispute_ok_stream h
    rw [this]
    exact hw

theorem run_op_preserves_inactive (op : Op) (w : World) (hw : w.stream.is_active = false) :
    (run_op op w).stream.is_active = false := by
  unfold run_op
  cases h : apply_op op w with
  | ok w2 => exact apply_op_preserves_inactive op w w2 hw h
  | error e => exact hw

theorem run_ops_preserves_inactive (ops : List Op) (w : World)
    (hw : w.stream.is_active = false) : (run_ops ops w).stream.is_active = false := by
  induction ops generalizing w with
  | nil => exact hw
  | cons op rest ih =>
    unfold run_ops
    simp only [List.foldl_cons]
    exact ih (run_op op w) (run_op_preserves_inactive op w hw)

end VibezLive

namespace VibezLive

/-- C1: the claim requires that some syntactically valid but incorrectly
signed attestation list makes `end_stream` fail with
`InvalidBackendSignature`.  The code cannot do this: its
`verify_signature` ignores the signature entirely and returns `true`, so
`end_stream` on the spec's example stream with an all-zeros 64-byte
signature verifies "successfully" and settles the stream instead of
failing. -/
theorem c1_end_stream_accepts_unverified_signature :
    verify_signature (backend_signer_pubkey egWorld.platform.authority)
      (create_signature_message egWorld.stream.id egVD) egSig = true ∧
    end_stream egWorld egVD egSig 10 = Except.ok egAfter :=
  ⟨rfl, rfl⟩

/-- C2: the claim requires one `ViewerReward` record per eligible viewer
with a positive reward.  The code computes both rewards (240 for viewer
10 and 560 for viewer 11, visible as `RewardCalculated` events) but
writes them into the single `viewer_reward` account of the `EndStream`
context, so after settlement only the last eligible viewer's record
(viewer 11, amount 560) exists; viewer 10's 240-unit reward has no
record. -/
theorem c2_single_viewer_reward_account_overwritten :
    end_stream egWorld egVD egSig 10 = Except.ok egAfter ∧
    egAfter.events = [Event.RewardCalculated "s" 10 240, Event.RewardCalculated "s" 11 560,
                      Event.StreamEnded "s" 1 10 1000] ∧
    egAfter.viewer_reward = { viewer := 11, stream := 5, amount := 560, claimed := false } :=
  ⟨rfl, rfl, rfl⟩

/-- C10: the outcome of `auto_settle_stream` does not depend on the
settler identity — the handler never inspects the `settler` signer, so
two calls differing only in the settler produce identical results. -/
theorem c10_auto_settle_settler_irrelevant (w : World) (s1 s2 : Pubkey) (t now : Int) :
    auto_settle_stream w s1 t now = auto_settle_stream w s2 t now :=
  rfl

/-- C5: settlement is terminal.  Once a stream is inactive, no sequence
of operations ever makes it active again, and any further `end_stream`
or `auto_settle_stream` call fails with `StreamInactive`, leaving the
world (hence the escrow) untouched. -/
theorem c5_settlement_terminal (w : World) (h : w.stream.is_active = false) :
    (∀ ops : List Op, (run_ops ops w).stream.is_active = false) ∧
    (∀ vd sig now, end_stream w vd sig now =
        Except.error (ProgError.program StreamError.StreamInactive)) ∧
    (∀ s t now, auto_settle_stream w s t now =
        Except.error (ProgError.program StreamError.StreamInactive)) ∧
    (∀ vd sig now, run_op (Op.endStreamOp vd sig now) w = w) ∧
    (∀ s t now, run_op (Op.autoSettleOp s t now) w = w) := by
  have hend : ∀ (vd : List ViewerData) (sig : List Nat) (now : Int),
      end_stream w vd sig now = Except.error (ProgError.program StreamError.StreamInactive) := by
    intro vd sig now
    simp [end_stream, h]
  have hauto : ∀ (s : Pubkey) (t now : Int),
      auto_settle_stream w s t now =
        Except.error (ProgError.program StreamError.StreamInactive) := by
    intro s t now
    simp [auto_settle_stream, h]
  refine ⟨fun ops => run_ops_preserves_inactive ops w h, hend, hauto, ?_, ?_⟩
  · intro vd sig now
    simp [run_op, apply_op, hend vd sig now]
  · intro s t now
    simp [run_op, apply_op, hauto s t now]

/-- Witness for C5 at the settled example world: a donate-then-claim
sequence leaves the stream inactive, and both settlement entry points
fail with `StreamInactive` and change nothing. -/
theorem c5_settlement_terminal_witness :
    egSettled.stream.is_active = false ∧
    (run_ops [Op.donateOp 2 5 6, Op.claimRewardOp] egSettled).stream.is_active = false ∧
    end_stream egSettled egVD egSig 11 =
      Except.error (ProgError.program StreamError.StreamInactive) ∧
    auto_settle_stream egSettled 3 7 11 =
      Except.error (ProgError.program StreamError.StreamInactive) ∧
    run_op (Op.endStreamOp egVD egSig 11) egSettled = egSettled ∧
    run_op (Op.autoSettleOp 3 7 11) egSettled = egSettled := by
  refine ⟨rfl, ?_, ?_, ?_, ?_, ?_⟩
  · exact (c5_settlement_terminal egSettled rfl).1 [Op.donateOp 2 5 6, Op.claimRewardOp]
  · exact (c5_settlement_terminal egSettled rfl).2.1 egVD egSig 11
  · exact (c5_settlement_terminal egSettled rfl).2.2.1 3 7 11
  · exact (c5_settlement_terminal egSettled rfl).2.2.2.1 egVD egSig 11
  · exact (c5_settlement_terminal egSettled rfl).2.2.2.2 3 7 11

end VibezLive

namespace VibezLive

/-- C6: timeout gating of `auto_settle_stream` on an active stream.  If
the overflow-checked `start_time + timeout_duration` fails, the call
fails with `MathOverflow`; otherwise the sum is exact, calling before it
fails with `TimeoutNotReached` (changing nothing), and calling at or
after it (with the pot covered by escrow) succeeds, pays the whole
`total_donations` to the creator, and marks the stream inactive with
`end_time = now`. -/
theorem c6_auto_settle_timeout_gating (w : World) (s : Pubkey) (t now : Int)
    (ha : w.stream.is_active = true) :
    (checked_add_i64 w.stream.start_time t = none →
      auto_settle_stream w s t now = Except.error (ProgError.program StreamError.MathOverflow)) ∧
    (∀ d, checked_add_i64 w.stream.start_time t = some d →
      d = w.stream.start_time + t ∧
      (now < d →
        auto_settle_stream w s t now =
          Except.error (ProgError.program StreamError.TimeoutNotReached)) ∧
      (d ≤ now → w.stream.total_donations ≤ w.escrow →
        auto_settle_stream w s t now = Except.ok { w with
          stream := { w.stream with is_active := false, end_time := now },
          escrow := w.escrow - w.stream.total_donations,
          creator_balance := w.creator_balance + w.stream.total_donations,
          events := w.events ++ [Event.StreamAutoSettled w.stream.id w.stream.creator now
            w.stream.total_donations] })) := by
  constructor
  · intro hn
    simp [auto_settle_stream, ha, hn]
  · intro d hd
    refine ⟨checked_add_i64_some hd, ?_, ?_⟩
    · intro hlt
      simp [auto_settle_stream, ha, hd, hlt]
    · intro hge htd
      have hnlt : ¬ now < d := by omega
      by_cases h0 : w.stream.total_donations > 0
      · have ht : transfer_tokens w.stream.total_donations w.escrow w.creator_balance =
            Except.ok (w.escrow - w.stream.total_donations,
                       w.creator_balance + w.stream.total_donations) := by
          simp [transfer_tokens, htd]
        simp [auto_settle_stream, ha, hd, hnlt, h0, ht]
      · have h00 : w.stream.total_donations = 0 := by omega
        simp [auto_settle_stream, ha, hd, hnlt, h0, h00]

/-- Witness for C6 on the example stream (start time 0): timeout 2^63
overflows i64, timeout 7 at time 6 is early, timeout 7 at time 8
settles, paying all 1000 units to the creator. -/
theorem c6_auto_settle_timeout_gating_witness :
    egWorld.stream.is_active = true ∧
    auto_settle_stream egWorld 3 (2 ^ 63) 5 =
      Except.error (ProgError.program StreamError.MathOverflow) ∧
    auto_settle_stream egWorld 3 7 6 =
      Except.error (ProgError.program StreamError.TimeoutNotReached) ∧
    auto_settle_stream egWorld 3 7 8 = Except.ok egAutoAfter := by
  refine ⟨rfl, ?_, ?_, ?_⟩
  · exact (c6_auto_settle_timeout_gating egWorld 3 (2 ^ 63) 5 rfl).1 (by decide)
  · exact (((c6_auto_settle_timeout_gating egWorld 3 7 6 rfl).2 7 (by decide)).2.1) (by decide)
  · exact (((c6_auto_settle_timeout_gating egWorld 3 7 8 rfl).2 7 (by decide)).2.2)
      (by decide) (by decide)

/-- C7: `claim_reward` fails with `RewardAlreadyClaimed` whenever the
reward is already claimed, fails with `StreamStillActive` on an unclaimed
reward whose stream is still active (both leaving the world unchanged,
as failures abort the transaction), and on success transfers exactly the
recorded amount from escrow to the viewer and flips `claimed` to true;
re-claiming after a success always fails, so the flip and the transfer
happen at most once. -/
theorem c7_claim_reward_exactly_once (w : World) :
    (w.viewer_reward.claimed = true →
      claim_reward w = Except.error (ProgError.program StreamError.RewardAlreadyClaimed)) ∧
    (w.viewer_reward.claimed = false → w.stream.is_active = true →
      claim_reward w = Except.error (ProgError.program StreamError.StreamStillActive)) ∧
    (w.viewer_reward.claimed = false → w.stream.is_active = false →
      w.viewer_reward.amount ≤ w.escrow →
      claim_reward w = Except.ok { w with
        escrow := w.escrow - w.viewer_reward.amount,
        viewer_balance := w.viewer_balance + w.viewer_reward.amount,
        viewer_reward := { w.viewer_reward with claimed := true },
        events := w.events ++ [Event.RewardClaimed w.stream.id w.viewer_reward.viewer
          w.viewer_reward.amount] }) ∧
    (∀ w2, claim_reward w = Except.ok w2 →
      claim_reward w2 = Except.error (ProgError.program StreamError.RewardAlreadyClaimed)) := by
  refine ⟨?_, ?_, ?_, ?_⟩
  · intro hc
    simp [claim_reward, hc]
  · intro hc ha
    simp [claim_reward, hc, ha]
  · intro hc ha he
    have ht : transfer_tokens w.viewer_reward.amount w.escrow w.viewer_balance =
        Except.ok (w.escrow - w.viewer_reward.amount,
                   w.viewer_balance + w.viewer_reward.amount) := by
      simp [transfer_tokens, he]
    simp [claim_reward, hc, ha, ht]
  · intro w2 h
    unfold claim_reward at h
    split at h
    · exact absurd h (by simp)
    · split at h
      · exact absurd h (by simp)
      · split at h
        · exact absurd h (by simp)
        · simp only [Except.ok.injEq] at h
          subst h
          simp [claim_reward]

/-- Witness for C7: claiming the 560-unit reward of the settled example
world succeeds and empties it into the viewer balance; claiming again
fails with `RewardAlreadyClaimed`; claiming while the stream is still
active fails with `StreamStillActive`. -/
theorem c7_claim_reward_exactly_once_witness :
    claim_reward egClaimWorld = Except.ok egClaimAfter ∧
    claim_reward egClaimAfter =
      Except.error (ProgError.program StreamError.RewardAlreadyClaimed) ∧
    claim_reward egWorld = Except.error (ProgError.program StreamError.StreamStillActive) := by
  refine ⟨?_, ?_, ?_⟩
  · exact (c7_claim_reward_exactly_once egClaimWorld).2.2.1 rfl rfl (by decide)
  · exact (c7_claim_reward_exactly_once egClaimWorld).2.2.2 egClaimAfter
      ((c7_claim_reward_exactly_once egClaimWorld).2.2.1 rfl rfl (by decide))
  · exact (c7_claim_reward_exactly_once egWorld).2.1 rfl rfl

end VibezLive

namespace VibezLive

/-- C8 counterexample: the claim says a successful `donate` always
records a strictly positive amount (equivalently, that a zero amount is
rejected).  The handler has no positivity check: donating 0 units to the
active example stream succeeds and creates a `Donation` record with
`amount = 0`. -/
theorem c8_zero_donation_counterexample :
    donate egWorld 2 0 6 = Except.ok egDonateAfter ∧ egDonateAfter.donation.amount = 0 :=
  ⟨rfl, rfl⟩

/-- C8 as amended: `donate` performs no positivity check; a successful
call records a `Donation` whose amount is exactly the requested amount —
zero included — and requires only that the stream is active (and that
the token transfer and the total-donations checked addition succeed). -/
theorem c8_donate_records_requested_amount (w : World) (donor : Pubkey) (amount : Nat)
    (now : Int) (w2 : World) (h : donate w donor amount now = Except.ok w2) :
    w2.donation = { donor := donor, stream := w.stream_key, amount := amount,
                    timestamp := now } ∧
    w.stream.is_active = true := by
  unfold donate at h
  split at h
  case isFalse => exact absurd h (by simp)
  case isTrue ha =>
  split at h
  · exact absurd h (by simp)
  · split at h
    · exact absurd h (by simp)
    · simp only [Except.ok.injEq] at h
      subst h
      exact ⟨rfl, ha⟩

/-- Witness for the amended C8 at the zero-amount donation. -/
theorem c8_donate_records_requested_amount_witness :
    egDonateAfter.donation = { donor := 2, stream := 5, amount := 0, timestamp := 6 } ∧
    egWorld.stream.is_active = true :=
  c8_donate_records_requested_amount egWorld 2 0 6 egDonateAfter rfl

/-- C9: a `resolve_dispute` call that supplies corrections and passes the
signature gate leaves every `ViewerReward` datum untouched (no amount,
viewer, or claimed flag changes and nothing new is created — the
`ResolveDispute` context cannot even reach reward accounts) and no funds
move; only the dispute's resolved flag, resolution text, resolver, and
resolution timestamp are written. -/
theorem c9_resolve_dispute_frame (w : World) (authority : Pubkey) (resolution : String)
    (corr : List ViewerData) (sig : List Nat) (now : Int) (w2 : World)
    (h : resolve_dispute w authority resolution (some corr) sig now = Except.ok w2) :
    w2.viewer_reward = w.viewer_reward ∧
    w2.escrow = w.escrow ∧ w2.creator_balance = w.creator_balance ∧
    w2.viewer_balance = w.viewer_balance ∧ w2.donor_balance = w.donor_balance ∧
    w2.stream = w.stream ∧ w2.donation = w.donation ∧
    w2.dispute.is_resolved = true ∧ w2.dispute.resolution = resolution ∧
    w2.dispute.resolver = authority ∧ w2.dispute.resolved_at = now ∧
    w2.dispute.stream = w.dispute.stream ∧ w2.dispute.claimant = w.dispute.claimant ∧
    w2.dispute.reason = w.dispute.reason ∧ w2.dispute.evidence = w.dispute.evidence := by
  unfold resolve_dispute at h
  split at h
  · exact absurd h (by simp)
  · split at h
    · simp only [verify_signature, if_true, Except.ok.injEq] at h
      subst h
      exact ⟨rfl, rfl, rfl, rfl, rfl, rfl, rfl, rfl, rfl, rfl, rfl, rfl, rfl, rfl, rfl⟩
    · exact absurd h (by simp)

/-- Witness for C9: the operator resolves the fresh dispute of the
settled example world with corrections; the reward record is unchanged
and the dispute is marked resolved. -/
theorem c9_resolve_dispute_frame_witness :
    resolve_dispute egSettled 9 "fixed" (some egVD) egSig 20 = Except.ok egResolveAfter ∧
    egResolveAfter.viewer_reward = egSettled.viewer_reward ∧
    egResolveAfter.escrow = egSettled.escrow ∧
    egResolveAfter.dispute.is_resolved = true :=
  ⟨rfl,
   (c9_resolve_dispute_frame egSettled 9 "fixed" egVD egSig 20 egResolveAfter rfl).1,
   (c9_resolve_dispute_frame egSettled 9 "fixed" egVD egSig 20 egResolveAfter rfl).2.1,
   (c9_resolve_dispute_frame egSettled 9 "fixed" egVD egSig 20 egResolveAfter
      rfl).2.2.2.2.2.2.2.1⟩

end VibezLive

namespace VibezLive

/-- C3: every successful `end_stream` pays the creator exactly
`floor(total_donations * creator_percentage / 100)` out of escrow, and
appends exactly the settlement events: one `RewardCalculated` per
eligible viewer carrying
`floor(viewers_amount * watch_time / total_valid_watch_time)` with
`viewers_amount = total_donations - creator_amount` and
`total_valid_watch_time` the watch-time sum over eligible viewers only
(see `settlement_events`, `reward_events`, `valid_watch_sum`). -/
theorem c3_settlement_split_formulas (w : World) (vd : List ViewerData) (sig : List Nat)
    (now : Int) (w2 : World) (h : end_stream w vd sig now = Except.ok w2) :
    w2.creator_balance =
      w.creator_balance + w.stream.total_donations * w.stream.creator_percentage / 100 ∧
    w2.escrow = w.escrow - w.stream.total_donations * w.stream.creator_percentage / 100 ∧
    w2.events = w.events ++ settlement_events w.stream vd now := by
  have hs := end_stream_ok_spec h
  exact ⟨hs.2.2.2.1, hs.2.2.2.2.1, hs.2.2.2.2.2.2.1⟩

/-- Witness for C3 at the spec's example: 1000 donated at 20 percent
gives the creator 200 and the viewers 800; watch times 30 and 70 yield
rewards 240 and 560. -/
theorem c3_settlement_split_formulas_witness :
    end_stream egWorld egVD egSig 10 = Except.ok egAfter ∧
    egAfter.creator_balance = egWorld.creator_balance + 200 ∧
    egAfter.escrow = egWorld.escrow - 200 ∧
    egAfter.events = egWorld.events ++ settlement_events egWorld.stream egVD 10 ∧
    settlement_events egWorld.stream egVD 10 =
      [Event.RewardCalculated "s" 10 240, Event.RewardCalculated "s" 11 560,
       Event.StreamEnded "s" 1 10 1000] := by
  refine ⟨rfl, ?_, ?_, ?_, by decide⟩
  · exact (c3_settlement_split_formulas egWorld egVD egSig 10 egAfter rfl).1
  · exact (c3_settlement_split_formulas egWorld egVD egSig 10 egAfter rfl).2.1
  · exact (c3_settlement_split_formulas egWorld egVD egSig 10 egAfter rfl).2.2

/-- C4: for every successful `end_stream`, the sum over eligible viewers
of the floor-divided rewards is at most the viewers' pot
`viewers_amount`, and nothing but the creator's share leaves escrow at
settlement — the floor-division remainder stays in the escrow balance.
The total carried by `RewardCalculated` events grows by at most
`viewers_amount`. -/
theorem c4_reward_sum_le_viewers_amount (w : World) (vd : List ViewerData) (sig : List Nat)
    (now : Int) (w2 : World) (h : end_stream w vd sig now = Except.ok w2) :
    eligible_reward_sum w.stream.min_watch_percentage
        (w.stream.total_donations - w.stream.total_donations * w.stream.creator_percentage / 100)
        (valid_watch_sum w.stream.min_watch_percentage vd) vd ≤
      w.stream.total_donations -
        w.stream.total_donations * w.stream.creator_percentage / 100 ∧
    w2.escrow = w.escrow - w.stream.total_donations * w.stream.creator_percentage / 100 ∧
    reward_event_total w2.events ≤
      reward_event_total w.events +
        (w.stream.total_donations -
          w.stream.total_donations * w.stream.creator_percentage / 100) := by
  have hs := end_stream_ok_spec h
  refine ⟨eligible_reward_sum_le _ _ _, hs.2.2.2.2.1, ?_⟩
  rw [hs.2.2.2.2.2.2.1, reward_event_total_append]
  have hb : reward_event_total (settlement_events w.stream vd now) ≤
      w.stream.total_donations - w.stream.total_donations * w.stream.creator_percentage / 100 := by
    simp only [settlement_events]
    rw [reward_event_total_append]
    have h1 : reward_event_total
        [Event.StreamEnded w.stream.id w.stream.creator now w.stream.total_donations] = 0 := rfl
    rw [h1]
    by_cases hc : 0 < w.stream.total_donations -
        w.stream.total_donations * w.stream.creator_percentage / 100 ∧
        0 < valid_watch_sum w.stream.min_watch_percentage vd
    · rw [if_pos hc, reward_event_total_reward_events]
      have := eligible_reward_sum_le w.stream.min_watch_percentage
        (w.stream.total_donations - w.stream.total_donations * w.stream.creator_percentage / 100)
        vd
      omega
    · rw [if_neg hc]
      simp [reward_event_total]
  omega

/-- Witness for C4 at the spec's remainder example: a 100-unit viewers
pot split over three eligible one-unit watch times gives three 33-unit
rewards summing to 99; the whole 100 (and hence the 1-unit remainder)
is still in escrow after settlement. -/
theorem c4_reward_sum_le_viewers_amount_witness :
    end_stream egRemWorld egRemVD egSig 10 = Except.ok egRemAfter ∧
    eligible_reward_sum 50 100 3 egRemVD = 99 ∧
    eligible_reward_sum egRemWorld.stream.min_watch_percentage
        (egRemWorld.stream.total_donations -
          egRemWorld.stream.total_donations * egRemWorld.stream.creator_percentage / 100)
        (valid_watch_sum egRemWorld.stream.min_watch_percentage egRemVD) egRemVD ≤
      egRemWorld.stream.total_donations -
        egRemWorld.stream.total_donations * egRemWorld.stream.creator_percentage / 100 ∧
    egRemAfter.escrow = 100 ∧
    reward_event_total egRemAfter.events ≤ reward_event_total egRemWorld.events + 100 := by
  refine ⟨rfl, by decide, ?_, ?_, ?_⟩
  · exact (c4_reward_sum_le_viewers_amount egRemWorld egRemVD egSig 10 egRemAfter rfl).1
  · exact (c4_reward_sum_le_viewers_amount egRemWorld egRemVD egSig 10 egRemAfter rfl).2.1
  · exact (c4_reward_sum_le_viewers_amount egRemWorld egRemVD egSig 10 egRemAfter rfl).2.2

end VibezLive
